import Mathlib

/-!
Verification of the eligibility engine of `one-client-view-2025tht`.

The Go source is shallowly embedded below.  Database tables become lists
inside a `Store`; `time.Now()` becomes an explicit `GoTime` argument
threaded to every operation that reads the clock; generated UUIDs become
an explicit `newID` argument; fallible operations return `Except`.
Field and function names follow the Go source (`models.go`,
`scheme_repository.go`, `application_repository.go`,
`application_handler.go`).
-/

/-- Embedding of Go `time.Time` as used by this code base: `isEligible`
and the repositories only ever inspect the calendar year (`.Year()`) or
compare instants for identity, so an instant is a year together with an
abstract position inside the year. -/
structure GoTime where
  year : Int
  frac : Nat
deriving DecidableEq

/-- The zero value of Go `time.Time` (year 1). -/
def GoTime.zero : GoTime := ⟨1, 0⟩

/-- Embedding of Go `strings.ToLower` on the rune sequence of a string.
The code base only lowercases ASCII status and relation labels, for which
`Char.toLower` agrees with Go. -/
def strToLower (s : String) : List Char :=
  s.toList.map Char.toLower

/-- One step of Go `strings.Contains`: does `sub` occur at some position
of the second list? -/
def containsSub (sub : List Char) : List Char → Bool
  | [] => List.isPrefixOf sub []
  | c :: cs => List.isPrefixOf sub (c :: cs) || containsSub sub cs

/-- Embedding of Go `strings.Contains s sub`. -/
def strContains (s : List Char) (sub : String) : Bool :=
  containsSub sub.toList s

/-- `models.HouseholdMember` (fields used by the core plus identity). -/
structure HouseholdMember where
  id : String
  applicantID : String
  name : String
  employmentStatus : String
  sex : String
  dateOfBirth : GoTime
  relation : String
deriving DecidableEq

/-- `models.Applicant` with its household, as loaded by
`ApplicantRepository.GetByID`. -/
structure Applicant where
  id : String
  name : String
  employmentStatus : String
  sex : String
  dateOfBirth : GoTime
  maritalStatus : String
  household : List HouseholdMember
deriving DecidableEq

/-- `models.ChildCriteria`. -/
structure ChildCriteria where
  schoolLevel : String
deriving DecidableEq

/-- `models.Criteria`. -/
structure Criteria where
  employmentStatus : String
  maritalStatus : String
  hasChildren : ChildCriteria
deriving DecidableEq

/-- `models.Benefit`. -/
structure Benefit where
  id : String
  schemeID : String
  name : String
  description : String
  amount : Rat
deriving DecidableEq

/-- `models.Scheme` with its criteria and benefits, as loaded by
`SchemeRepository.GetAll` / `GetByID`. -/
structure Scheme where
  id : String
  name : String
  description : String
  criteria : Criteria
  benefits : List Benefit
deriving DecidableEq

/-- `models.Application`: one row of the `applications` table.
`decisionDate` embeds the nullable `sql.NullTime` column as an
`Option`. -/
structure Application where
  id : String
  applicantID : String
  schemeID : String
  status : String
  applicationDate : GoTime
  decisionDate : Option GoTime
  notes : String
  createdAt : GoTime
  updatedAt : GoTime
deriving DecidableEq

/-- The database state: the three tables reached by the embedded
operations. -/
structure Store where
  applicants : List Applicant
  schemes : List Scheme
  applications : List Application
deriving DecidableEq

/-- The error outcomes surfaced by the embedded repository and handler
operations. -/
inductive RepoError where
  | badRequest
  | applicantNotFound (id : String)
  | schemeNotFound (id : String)
  | applicationNotFound
  | ineligible
deriving DecidableEq

/-- The member test of the children clause of `isEligible`
(`scheme_repository.go:288`–`299`): the body of the `for` loop over the
household, true exactly when the loop would set `hasEligibleChild`. -/
def childMatches (schoolLevel : String) (now : GoTime) (member : HouseholdMember) : Bool :=
  if strContains (strToLower member.relation) "son"
      || strContains (strToLower member.relation) "daughter" then
    let age : Int := now.year - member.dateOfBirth.year
    decide (6 ≤ age ∧ age ≤ 12 ∧ schoolLevel = "primary")
  else
    false

/-- `isEligible` (`scheme_repository.go:270`–`306`).  The Go function
calls `time.Now()`; the embedding receives that instant as `now`. -/
def isEligible (applicant : Applicant) (scheme : Scheme) (now : GoTime) : Bool :=
  if scheme.criteria.employmentStatus ≠ "" ∧
      strToLower scheme.criteria.employmentStatus ≠ strToLower applicant.employmentStatus then
    false
  else if scheme.criteria.maritalStatus ≠ "" ∧
      strToLower scheme.criteria.maritalStatus ≠ strToLower applicant.maritalStatus then
    false
  else if scheme.criteria.hasChildren.schoolLevel ≠ "" then
    applicant.household.any (childMatches scheme.criteria.hasChildren.schoolLevel now)
  else
    true

namespace ApplicantRepository

/-- `ApplicantRepository.GetByID`: the row of the `applicants` table with
the given id (with household), or `none`. -/
def GetByID (store : Store) (id : String) : Option Applicant :=
  store.applicants.find? (fun a => a.id == id)

end ApplicantRepository

/-- The `ORDER BY name ASC` of `SchemeRepository.GetAll`, on the rune
sequence of the scheme name. -/
def schemeNameLE (s1 s2 : Scheme) : Prop :=
  s1.name.toList ≤ s2.name.toList

instance : DecidableRel schemeNameLE :=
  fun s1 s2 => inferInstanceAs (Decidable (s1.name.toList ≤ s2.name.toList))

instance : IsTotal Scheme schemeNameLE :=
  ⟨fun s1 s2 => le_total s1.name.toList s2.name.toList⟩

instance : IsTrans Scheme schemeNameLE :=
  ⟨fun _ _ _ h1 h2 => le_trans h1 h2⟩

namespace SchemeRepository

/-- `SchemeRepository.GetByID`: the scheme with the given id, or
`none`. -/
def GetByID (store : Store) (id : String) : Option Scheme :=
  store.schemes.find? (fun s => s.id == id)

/-- `SchemeRepository.GetAll`: every scheme, ordered by name ascending as
the SQL `ORDER BY name ASC` returns them. -/
def GetAll (store : Store) : List Scheme :=
  List.insertionSort schemeNameLE store.schemes

/-- `SchemeRepository.GetEligibleSchemes` (`scheme_repository.go:243`–
`267`): load the applicant (error when absent), load all schemes, keep
those for which `isEligible` holds, in order. -/
def GetEligibleSchemes (store : Store) (applicantID : String) (now : GoTime) :
    Except RepoError (List Scheme) :=
  match ApplicantRepository.GetByID store applicantID with
  | none => .error (.applicantNotFound applicantID)
  | some applicant =>
      .ok ((GetAll store).filter (fun scheme => isEligible applicant scheme now))

end SchemeRepository

namespace ApplicationRepository

/-- `ApplicationRepository.GetByID` restricted to the `applications` row
itself (the Go function additionally attaches the applicant and scheme
records for response composition, which the update and create paths do
not consult). -/
def GetByID (store : Store) (id : String) : Option Application :=
  store.applications.find? (fun a => a.id == id)

/-- `ApplicationRepository.Create` (`application_repository.go:172`–
`221`): validate applicant and scheme, gate on `isEligible`, then insert.
`newID` stands for `uuid.New()` and `now` for `time.Now()`.  The SQL
`INSERT` does not mention `decision_date`, so the stored row carries the
column's `NULL` default.  Error outcomes leave the store untouched. -/
def Create (store : Store) (a : Application) (newID : String) (now : GoTime) :
    Except RepoError Application × Store :=
  match ApplicantRepository.GetByID store a.applicantID with
  | none => (.error (.applicantNotFound a.applicantID), store)
  | some applicant =>
    match SchemeRepository.GetByID store a.schemeID with
    | none => (.error (.schemeNotFound a.schemeID), store)
    | some scheme =>
      if isEligible applicant scheme now = false then
        (.error .ineligible, store)
      else
        let a1 : Application :=
          { a with
            id := if a.id = "" then newID else a.id,
            createdAt := now,
            updatedAt := now,
            applicationDate := now }
        let a2 : Application :=
          { a1 with status := if a1.status = "" then "pending" else a1.status }
        (.ok a2, { store with applications := store.applications ++ [{ a2 with decisionDate := none }] })

/-- `ApplicationRepository.Update` (`application_repository.go:224`–
`244`): stamp `updatedAt` with `time.Now()`, then `UPDATE ... SET status,
decision_date, notes, updated_at WHERE id = ?`. -/
def Update (store : Store) (a : Application) (now : GoTime) :
    Except RepoError Application × Store :=
  let a1 : Application := { a with updatedAt := now }
  (.ok a1,
    { store with
      applications := store.applications.map (fun r =>
        if r.id = a1.id then
          { r with
            status := a1.status,
            decisionDate := a1.decisionDate,
            notes := a1.notes,
            updatedAt := a1.updatedAt }
        else r) })

/-- `ApplicationRepository.UpdateStatus` (`application_repository.go:247`–
`268`): derive the decision date from the new status, then `UPDATE ...
SET status, decision_date, updated_at WHERE id = ?`.  No caller in the
repository reaches this function. -/
def UpdateStatus (store : Store) (id status : String) (now : GoTime) :
    Except RepoError Unit × Store :=
  let decisionDate : Option GoTime :=
    if status = "approved" ∨ status = "rejected" then some now else none
  (.ok (),
    { store with
      applications := store.applications.map (fun r =>
        if r.id = id then
          { r with status := status, decisionDate := decisionDate, updatedAt := now }
        else r) })

end ApplicationRepository

namespace ApplicationHandler

/-- `ApplicationHandler.CreateApplication`
(`application_handler.go:127`–`204`): validate the two identifiers, check
that applicant and scheme exist, build an `Application` with status
`"pending"` and the request's notes (all other fields Go zero values),
and delegate to `ApplicationRepository.Create`. -/
def CreateApplication (store : Store) (applicantID schemeID notes newID : String)
    (now : GoTime) : Except RepoError Application × Store :=
  if applicantID = "" then (.error .badRequest, store)
  else if schemeID = "" then (.error .badRequest, store)
  else
    match ApplicantRepository.GetByID store applicantID with
    | none => (.error (.applicantNotFound applicantID), store)
    | some _ =>
      match SchemeRepository.GetByID store schemeID with
      | none => (.error (.schemeNotFound schemeID), store)
      | some _ =>
        ApplicationRepository.Create store
          { id := "",
            applicantID := applicantID,
            schemeID := schemeID,
            status := "pending",
            applicationDate := GoTime.zero,
            decisionDate := none,
            notes := notes,
            createdAt := GoTime.zero,
            updatedAt := GoTime.zero }
          newID now

/-- `ApplicationHandler.UpdateApplication`
(`application_handler.go:219`–`280`): load the existing application (404
when absent), overwrite status and notes only when the request supplies
non-empty values, and delegate to `ApplicationRepository.Update`. -/
def UpdateApplication (store : Store) (id reqStatus reqNotes : String) (now : GoTime) :
    Except RepoError Application × Store :=
  match ApplicationRepository.GetByID store id with
  | none => (.error .applicationNotFound, store)
  | some existing =>
    let e1 : Application :=
      if reqStatus ≠ "" then { existing with status := reqStatus } else existing
    let e2 : Application :=
      if reqNotes ≠ "" then { e1 with notes := reqNotes } else e1
    ApplicationRepository.Update store e2 now

end ApplicationHandler

/-! Concrete data used by witnesses and counterexamples. -/

/-- A household member with relation `"daughter"` born in `birthYear`. -/
def demoDaughter (birthYear : Int) : HouseholdMember :=
  { id := "m1", applicantID := "a1", name := "Dee", employmentStatus := "unemployed",
    sex := "F", dateOfBirth := ⟨birthYear, 2⟩, relation := "daughter" }

/-- A household member with relation `"Step-Son"` born in `birthYear`. -/
def demoStepSon (birthYear : Int) : HouseholdMember :=
  { id := "m2", applicantID := "a1", name := "Sam", employmentStatus := "unemployed",
    sex := "M", dateOfBirth := ⟨birthYear, 2⟩, relation := "Step-Son" }

/-- An applicant (`id` `"a1"`, employment `"Unemployed"`, marital
`"single"`) with the given household. -/
def demoApplicant (hh : List HouseholdMember) : Applicant :=
  { id := "a1", name := "Jane", employmentStatus := "Unemployed", sex := "F",
    dateOfBirth := ⟨1990, 5⟩, maritalStatus := "single", household := hh }

/-- A scheme whose only populated criterion is `school_level =
"primary"`. -/
def primaryScheme : Scheme :=
  { id := "s-primary", name := "C Scheme", description := "",
    criteria := { employmentStatus := "", maritalStatus := "",
                  hasChildren := ⟨"primary"⟩ },
    benefits := [] }

/-- A scheme whose only populated criterion is employment status
`"unemployed"`. -/
def unemployedScheme : Scheme :=
  { id := "s-unemployed", name := "B Scheme", description := "",
    criteria := { employmentStatus := "unemployed", maritalStatus := "",
                  hasChildren := ⟨""⟩ },
    benefits := [] }

/-- A scheme whose only populated criterion is marital status
`"married"`. -/
def marriedScheme : Scheme :=
  { id := "s-married", name := "A Scheme", description := "",
    criteria := { employmentStatus := "", maritalStatus := "married",
                  hasChildren := ⟨""⟩ },
    benefits := [] }

/-- A store holding `demoApplicant` (with a nine-year-old daughter as of
2025) and the two status-criteria schemes. -/
def demoStore : Store :=
  { applicants := [demoApplicant [demoDaughter 2016]],
    schemes := [unemployedScheme, marriedScheme],
    applications := [] }

/-! Claim theorems. -/

/-- Claim C7: for every applicant and every scheme whose criteria has all
fields empty (employment status, marital status, school level),
`isEligible` returns true. -/
theorem empty_criteria_always_eligible :
    ∀ (a : Applicant) (s : Scheme) (now : GoTime),
      s.criteria.employmentStatus = "" →
      s.criteria.maritalStatus = "" →
      s.criteria.hasChildren.schoolLevel = "" →
      isEligible a s now = true := by
  intro a s now he hm hc
  simp [isEligible, he, hm, hc]

/-- Witness for C7 at a concrete applicant and a concrete scheme with
empty criteria. -/
theorem empty_criteria_always_eligible_witness :
    isEligible (demoApplicant [])
      { id := "s0", name := "Z", description := "",
        criteria := { employmentStatus := "", maritalStatus := "", hasChildren := ⟨""⟩ },
        benefits := [] } ⟨2025, 0⟩ = true :=
  empty_criteria_always_eligible _ _ _ rfl rfl rfl

/-- Claim C6: a non-empty employment-status criterion that differs from
the applicant's employment status after lowercasing forces `isEligible`
to false, whatever the other fields; symmetrically for the
marital-status criterion; and lowercased comparison makes
`"Unemployed"` match a criterion value `"unemployed"`. -/
theorem status_mismatch_ineligible :
    (∀ (a : Applicant) (s : Scheme) (now : GoTime),
        s.criteria.employmentStatus ≠ "" →
        strToLower s.criteria.employmentStatus ≠ strToLower a.employmentStatus →
        isEligible a s now = false)
    ∧ (∀ (a : Applicant) (s : Scheme) (now : GoTime),
        s.criteria.maritalStatus ≠ "" →
        strToLower s.criteria.maritalStatus ≠ strToLower a.maritalStatus →
        isEligible a s now = false)
    ∧ isEligible (demoApplicant []) unemployedScheme ⟨2025, 0⟩ = true := by
  refine ⟨?_, ?_, by decide⟩
  · intro a s now h1 h2
    simp only [isEligible]
    rw [if_pos ⟨h1, h2⟩]
  · intro a s now h1 h2
    simp only [isEligible]
    split
    · rfl
    · rw [if_pos ⟨h1, h2⟩]

/-- Witness for C6: the applicant with employment status `"Unemployed"`
fails a scheme requiring marital status `"married"`. -/
theorem status_mismatch_ineligible_witness :
    isEligible (demoApplicant []) marriedScheme ⟨2025, 0⟩ = false :=
  status_mismatch_ineligible.2.1 _ _ _ (by decide) (by decide)

/-- The loop body of the children clause can only accept a member when
the school level is literally `"primary"`. -/
theorem childMatches_of_ne_primary (lvl : String) (now : GoTime) (m : HouseholdMember)
    (h : lvl ≠ "primary") : childMatches lvl now m = false := by
  simp only [childMatches]
  split
  · exact decide_eq_false (fun hc => h hc.2.2)
  · rfl

/-- Claim C5: a scheme whose `school_level` is non-empty and different
from `"primary"` rejects every applicant — no household member can match
the children clause. -/
theorem nonprimary_school_level_never_eligible :
    ∀ (a : Applicant) (s : Scheme) (now : GoTime),
      s.criteria.hasChildren.schoolLevel ≠ "" →
      s.criteria.hasChildren.schoolLevel ≠ "primary" →
      isEligible a s now = false := by
  intro a s now h1 h2
  simp only [isEligible]
  split
  · rfl
  · split
    · rfl
    · exact List.any_eq_false.mpr fun m _ => by
        rw [childMatches_of_ne_primary _ _ _ h2]
        exact Bool.false_ne_true

/-- The loop body of the children clause at school level `"primary"`,
characterized: a member passes exactly when its relation contains `"son"`
or `"daughter"` after lowercasing and its year-difference age lies in
`[6, 12]`. -/
theorem childMatches_primary_iff (now : GoTime) (m : HouseholdMember) :
    childMatches "primary" now m = true ↔
      ((strContains (strToLower m.relation) "son" = true ∨
        strContains (strToLower m.relation) "daughter" = true) ∧
       6 ≤ now.year - m.dateOfBirth.year ∧ now.year - m.dateOfBirth.year ≤ 12) := by
  simp only [childMatches]
  split
  · next h =>
    simp only [Bool.or_eq_true] at h
    simp only [decide_eq_true_eq]
    exact ⟨fun hc => ⟨h, hc.1, hc.2.1⟩, fun hc => ⟨hc.2.1, hc.2.2, trivial⟩⟩
  · next h =>
    simp only [Bool.or_eq_true] at h
    constructor
    · intro hfalse
      exact absurd hfalse (by decide)
    · intro hc
      exact absurd hc.1 h

/-- Claim C4: with school level exactly `"primary"` (and the two status
criteria unpopulated, isolating the children clause), `isEligible` holds
exactly when some household member has a relation containing `"son"` or
`"daughter"` case-insensitively and a year-difference age in the
inclusive range `[6, 12]`; concretely, as of 2025, daughters born 2019
(age 6) and 2013 (age 12) pass, daughters born 2020 (age 5) and 2012
(age 13) fail, a `"Step-Son"` born 2016 passes, and an empty household
fails. -/
theorem primary_children_clause_characterization :
    (∀ (a : Applicant) (s : Scheme) (now : GoTime),
        s.criteria.employmentStatus = "" →
        s.criteria.maritalStatus = "" →
        s.criteria.hasChildren.schoolLevel = "primary" →
        (isEligible a s now = true ↔
          ∃ m ∈ a.household,
            (strContains (strToLower m.relation) "son" = true ∨
             strContains (strToLower m.relation) "daughter" = true) ∧
            6 ≤ now.year - m.dateOfBirth.year ∧ now.year - m.dateOfBirth.year ≤ 12))
    ∧ isEligible (demoApplicant [demoDaughter 2019]) primaryScheme ⟨2025, 0⟩ = true
    ∧ isEligible (demoApplicant [demoDaughter 2013]) primaryScheme ⟨2025, 0⟩ = true
    ∧ isEligible (demoApplicant [demoDaughter 2020]) primaryScheme ⟨2025, 0⟩ = false
    ∧ isEligible (demoApplicant [demoDaughter 2012]) primaryScheme ⟨2025, 0⟩ = false
    ∧ isEligible (demoApplicant [demoStepSon 2016]) primaryScheme ⟨2025, 0⟩ = true
    ∧ isEligible (demoApplicant []) primaryScheme ⟨2025, 0⟩ = false := by
  refine ⟨?_, by decide, by decide, by decide, by decide, by decide, by decide⟩
  intro a s now he hm hp
  have hred : isEligible a s now = a.household.any (childMatches "primary" now) := by
    simp [isEligible, he, hm, hp]
  rw [hred, List.any_eq_true]
  constructor
  · rintro ⟨m, hmem, hcm⟩
    exact ⟨m, hmem, (childMatches_primary_iff now m).mp hcm⟩
  · rintro ⟨m, hmem, hcond⟩
    exact ⟨m, hmem, (childMatches_primary_iff now m).mpr hcond⟩

/-- Witness for C4 at the `"Step-Son"` household. -/
theorem primary_children_clause_characterization_witness :
    ∃ m ∈ (demoApplicant [demoStepSon 2016]).household,
      (strContains (strToLower m.relation) "son" = true ∨
       strContains (strToLower m.relation) "daughter" = true) ∧
      6 ≤ (⟨2025, 0⟩ : GoTime).year - m.dateOfBirth.year ∧
      (⟨2025, 0⟩ : GoTime).year - m.dateOfBirth.year ≤ 12 :=
  (primary_children_clause_characterization.1 (demoApplicant [demoStepSon 2016])
    primaryScheme ⟨2025, 0⟩ rfl rfl rfl).mp (by decide)

/-- The children loop body only reads the year of the clock instant. -/
theorem childMatches_year_congr (lvl : String) {t1 t2 : GoTime} (h : t1.year = t2.year) :
    childMatches lvl t1 = childMatches lvl t2 := by
  funext m
  simp only [childMatches, h]

/-- `isEligible` only reads the year of the clock instant it is given. -/
theorem isEligible_year_congr (a : Applicant) (s : Scheme) {t1 t2 : GoTime}
    (h : t1.year = t2.year) : isEligible a s t1 = isEligible a s t2 := by
  simp only [isEligible, childMatches_year_congr s.criteria.hasChildren.schoolLevel h]

/-- Claim C2 (amended): `isEligible` is a deterministic function of the
applicant, the scheme, and the calendar year read from the clock — two
invocations on equal inputs under the same clock year agree, and
`GetEligibleSchemes` invoked twice on the same store within the same
clock year returns identical results in identical order.  (It is not a
function of the two data inputs alone: the children clause reads
`time.Now().Year()`.) -/
theorem eligibility_deterministic_given_clock_year :
    (∀ (a : Applicant) (s : Scheme) (t1 t2 : GoTime),
        t1.year = t2.year → isEligible a s t1 = isEligible a s t2)
    ∧ (∀ (store : Store) (applicantID : String) (t1 t2 : GoTime),
        t1.year = t2.year →
          SchemeRepository.GetEligibleSchemes store applicantID t1 =
            SchemeRepository.GetEligibleSchemes store applicantID t2) := by
  refine ⟨fun a s t1 t2 h => isEligible_year_congr a s h, ?_⟩
  intro store applicantID t1 t2 h
  simp only [SchemeRepository.GetEligibleSchemes]
  cases hA : ApplicantRepository.GetByID store applicantID
  · rfl
  · next a =>
    show Except.ok (List.filter (fun scheme => isEligible a scheme t1)
        (SchemeRepository.GetAll store)) =
      Except.ok (List.filter (fun scheme => isEligible a scheme t2)
        (SchemeRepository.GetAll store))
    have hfun : (fun scheme => isEligible a scheme t1) =
        (fun scheme => isEligible a scheme t2) :=
      funext fun s => isEligible_year_congr a s h
    rw [hfun]

/-- Witness for the amended C2: two instants of 2025 give the same
verdict. -/
theorem eligibility_deterministic_given_clock_year_witness :
    isEligible (demoApplicant [demoDaughter 2019]) primaryScheme ⟨2025, 0⟩ =
      isEligible (demoApplicant [demoDaughter 2019]) primaryScheme ⟨2025, 9⟩ :=
  eligibility_deterministic_given_clock_year.1 _ _ _ _ rfl

/-- Counterexample to C2 as stated: for a fixed applicant (daughter born
2019) and a fixed scheme (school level `"primary"`), evaluating in 2024
and in 2025 yields different booleans, so `isEligible` is not a function
of its two data inputs alone. -/
theorem eligibility_depends_on_clock_cex :
    ¬ (isEligible (demoApplicant [demoDaughter 2019]) primaryScheme ⟨2024, 0⟩ =
       isEligible (demoApplicant [demoDaughter 2019]) primaryScheme ⟨2025, 0⟩) := by
  decide

/-- Claim C8: `GetEligibleSchemes` fails with the not-found error when
the applicant id is absent; otherwise it returns exactly the
`isEligible`-filtered subset of the full scheme listing, in the listing's
order — and that listing is sorted alphabetically by scheme name and is a
permutation of the schemes table. -/
theorem get_eligible_schemes_notfound_or_ordered_filter :
    ∀ (store : Store) (applicantID : String) (now : GoTime),
      (ApplicantRepository.GetByID store applicantID = none →
        SchemeRepository.GetEligibleSchemes store applicantID now =
          .error (.applicantNotFound applicantID))
      ∧ (∀ applicant, ApplicantRepository.GetByID store applicantID = some applicant →
          SchemeRepository.GetEligibleSchemes store applicantID now =
            .ok ((SchemeRepository.GetAll store).filter
              (fun scheme => isEligible applicant scheme now))
          ∧ List.Sorted schemeNameLE (SchemeRepository.GetAll store)
          ∧ (SchemeRepository.GetAll store).Perm store.schemes) := by
  intro store applicantID now
  constructor
  · intro h
    simp [SchemeRepository.GetEligibleSchemes, h]
  · intro applicant h
    refine ⟨?_, List.sorted_insertionSort schemeNameLE store.schemes,
      List.perm_insertionSort schemeNameLE store.schemes⟩
    simp [SchemeRepository.GetEligibleSchemes, h]

/-- Witness for C8 on the demo store: the applicant exists, so the result
is the ordered filter of the listing. -/
theorem get_eligible_schemes_notfound_or_ordered_filter_witness :
    SchemeRepository.GetEligibleSchemes demoStore "a1" ⟨2025, 0⟩ =
      .ok ((SchemeRepository.GetAll demoStore).filter
        (fun scheme => isEligible (demoApplicant [demoDaughter 2016]) scheme ⟨2025, 0⟩)) :=
  ((get_eligible_schemes_notfound_or_ordered_filter demoStore "a1" ⟨2025, 0⟩).2
    (demoApplicant [demoDaughter 2016]) (by decide)).1

/-- Claim C1: when the referenced applicant fails the scheme's criteria,
the gated create returns the ineligibility error and leaves the store —
in particular the applications table — exactly as it was. -/
theorem create_ineligible_returns_error_and_writes_nothing :
    ∀ (store : Store) (a : Application) (newID : String) (now : GoTime)
      (applicant : Applicant) (scheme : Scheme),
      ApplicantRepository.GetByID store a.applicantID = some applicant →
      SchemeRepository.GetByID store a.schemeID = some scheme →
      isEligible applicant scheme now = false →
      ApplicationRepository.Create store a newID now = (.error .ineligible, store) := by
  intro store a newID now applicant scheme h1 h2 h3
  simp [ApplicationRepository.Create, h1, h2, h3]

/-- A create request from the demo applicant for the marital-status
scheme, which the applicant (single) fails. -/
def demoDraft : Application :=
  { id := "", applicantID := "a1", schemeID := "s-married", status := "",
    applicationDate := GoTime.zero, decisionDate := none, notes := "help",
    createdAt := GoTime.zero, updatedAt := GoTime.zero }

/-- Witness for C1: creating `demoDraft` in the demo store fails as
ineligible with the store unchanged. -/
theorem create_ineligible_returns_error_and_writes_nothing_witness :
    ApplicationRepository.Create demoStore demoDraft "uuid-1" ⟨2025, 0⟩ =
      (.error .ineligible, demoStore) :=
  create_ineligible_returns_error_and_writes_nothing demoStore demoDraft "uuid-1" ⟨2025, 0⟩
    (demoApplicant [demoDaughter 2016]) marriedScheme (by decide) (by decide) (by decide)

/-- Claim C9: when both identifiers resolve and the eligibility gate
passes, the create handler persists (and returns) a new application with
status `"pending"`, application date equal to the current instant, the
request's notes, and no decision date; the new row is appended to the
applications table. -/
theorem gated_create_persists_pending_with_current_date :
    ∀ (store : Store) (applicantID schemeID notes newID : String) (now : GoTime)
      (applicant : Applicant) (scheme : Scheme),
      applicantID ≠ "" → schemeID ≠ "" →
      ApplicantRepository.GetByID store applicantID = some applicant →
      SchemeRepository.GetByID store schemeID = some scheme →
      isEligible applicant scheme now = true →
      ApplicationHandler.CreateApplication store applicantID schemeID notes newID now =
        (.ok { id := newID, applicantID := applicantID, schemeID := schemeID,
               status := "pending", applicationDate := now, decisionDate := none,
               notes := notes, createdAt := now, updatedAt := now },
         { store with applications := store.applications ++
             [{ id := newID, applicantID := applicantID, schemeID := schemeID,
                status := "pending", applicationDate := now, decisionDate := none,
                notes := notes, createdAt := now, updatedAt := now }] }) := by
  intro store applicantID schemeID notes newID now applicant scheme hA hS h1 h2 h3
  simp [ApplicationHandler.CreateApplication, hA, hS, h1, h2,
        ApplicationRepository.Create, h3]

/-- Witness for C9: the demo applicant (employment `"Unemployed"`)
creates an application for the `"unemployed"` scheme. -/
theorem gated_create_persists_pending_with_current_date_witness :
    ApplicationHandler.CreateApplication demoStore "a1" "s-unemployed" "note" "uuid-2"
      ⟨2025, 3⟩ =
      (.ok { id := "uuid-2", applicantID := "a1", schemeID := "s-unemployed",
             status := "pending", applicationDate := ⟨2025, 3⟩, decisionDate := none,
             notes := "note", createdAt := ⟨2025, 3⟩, updatedAt := ⟨2025, 3⟩ },
       { demoStore with applications := demoStore.applications ++
           [{ id := "uuid-2", applicantID := "a1", schemeID := "s-unemployed",
              status := "pending", applicationDate := ⟨2025, 3⟩, decisionDate := none,
              notes := "note", createdAt := ⟨2025, 3⟩, updatedAt := ⟨2025, 3⟩ }] }) :=
  gated_create_persists_pending_with_current_date demoStore "a1" "s-unemployed" "note"
    "uuid-2" ⟨2025, 3⟩ (demoApplicant [demoDaughter 2016]) unemployedScheme
    (by decide) (by decide) (by decide) (by decide) (by decide)

/-- A stored pending application with no decision date, belonging to the
demo applicant and the `"unemployed"` scheme. -/
def pendingApp : Application :=
  { id := "app1", applicantID := "a1", schemeID := "s-unemployed", status := "pending",
    applicationDate := ⟨2025, 1⟩, decisionDate := none, notes := "",
    createdAt := ⟨2025, 1⟩, updatedAt := ⟨2025, 1⟩ }

/-- The demo store together with `pendingApp` in the applications
table. -/
def appStore : Store :=
  { applicants := [demoApplicant [demoDaughter 2016]],
    schemes := [unemployedScheme],
    applications := [pendingApp] }

/-- The row the update endpoint actually stores when `pendingApp` is
moved to `"approved"` at instant `(2025, 6)`: decision date still
unset. -/
def approvedNoDecision : Application :=
  { pendingApp with status := "approved", updatedAt := ⟨2025, 6⟩ }

/-- The row `UpdateStatus` would store for the same transition: decision
date set to the transition time. -/
def approvedWithDecision : Application :=
  { pendingApp with
    status := "approved",
    decisionDate := some ⟨2025, 6⟩,
    updatedAt := ⟨2025, 6⟩ }

/-- Claim C3, evaluated at the failing input: transitioning `pendingApp`
to `"approved"` through the update endpoint leaves the stored decision
date unset (the handler routes through `Update`, which writes the old
decision date back verbatim), whereas the repository's `UpdateStatus` —
which no code path invokes — would have set it to the transition time as
the claim requires. -/
theorem update_approved_leaves_decision_date_unset :
    ((ApplicationHandler.UpdateApplication appStore "app1" "approved" ""
        ⟨2025, 6⟩).2.applications = [approvedNoDecision])
    ∧ ((ApplicationRepository.UpdateStatus appStore "app1" "approved"
        ⟨2025, 6⟩).2.applications = [approvedWithDecision]) :=
  ⟨by decide, by decide⟩

/-- Claim C10 (amended): the update endpoint treats an empty status or
notes string as "no change" (the stored value is kept, so neither can be
cleared), preserves the decision date and every other stored field of
the targeted application, except that its `updated_at` timestamp is
stamped with the update time; rows with other ids are untouched. -/
theorem update_changes_only_status_notes_updatedAt :
    ∀ (store : Store) (id reqStatus reqNotes : String) (now : GoTime)
      (existing : Application),
      ApplicationRepository.GetByID store id = some existing →
      (ApplicationHandler.UpdateApplication store id reqStatus reqNotes now).1 =
        .ok { existing with
              status := if reqStatus ≠ "" then reqStatus else existing.status,
              notes := if reqNotes ≠ "" then reqNotes else existing.notes,
              updatedAt := now }
      ∧ (ApplicationHandler.UpdateApplication store id reqStatus reqNotes now).2.applications =
          store.applications.map (fun r =>
            if r.id = existing.id then
              { r with
                status := if reqStatus ≠ "" then reqStatus else existing.status,
                notes := if reqNotes ≠ "" then reqNotes else existing.notes,
                decisionDate := existing.decisionDate,
                updatedAt := now }
            else r) := by
  intro store id rs rn now ex h
  simp only [ApplicationHandler.UpdateApplication, h, ApplicationRepository.Update]
  by_cases hs : rs = "" <;> by_cases hn : rn = "" <;> simp [hs, hn]

/-- Witness for the amended C10: updating `pendingApp` with an empty
status and notes `"granted"` keeps the status and decision date and
stamps `updated_at`. -/
theorem update_changes_only_status_notes_updatedAt_witness :
    (ApplicationHandler.UpdateApplication appStore "app1" "" "granted" ⟨2026, 0⟩).1 =
      .ok { pendingApp with notes := "granted", updatedAt := ⟨2026, 0⟩ } := by
  have h := update_changes_only_status_notes_updatedAt appStore "app1" "" "granted"
    ⟨2026, 0⟩ pendingApp (by decide)
  rw [h.1]
  rfl

/-- Counterexample to C10 as stated: an update supplying empty status and
empty notes still mutates the stored application — its `updated_at`
field is stamped — so not every other field is left unchanged. -/
theorem update_empty_request_still_changes_row_cex :
    (ApplicationHandler.UpdateApplication appStore "app1" "" "" ⟨2026, 0⟩).2.applications ≠
      appStore.applications := by
  decide

/-- Witness for C5: an applicant with a nine-year-old daughter still
fails a scheme whose school level is `"secondary"`. -/
theorem nonprimary_school_level_never_eligible_witness :
    isEligible (demoApplicant [demoDaughter 2016])
      { id := "s-sec", name := "D Scheme", description := "",
        criteria := { employmentStatus := "", maritalStatus := "",
                      hasChildren := ⟨"secondary"⟩ },
        benefits := [] } ⟨2025, 0⟩ = false :=
  nonprimary_school_level_never_eligible _ _ _ (by decide) (by decide)
